import Mathlib

/-!
Verification of the PyHula Python-3.13 struct-packing compatibility shims
(repository janisgra/pyhula-win11).

The repository wraps CPython's `struct.pack` with several coercing
compatibility wrappers:

* `utils/struct_patch.py` — `safe_struct_pack`: tries the original packer
  first; on a type/range error it coerces every argument to an integer and
  clamps it to the range of its format character, then retries.
* `utils/python313_compat.py` (and the identical copy inlined in
  `src/pyhula/__init__.py` as `_safe_struct_pack`) — parses the format
  string, zips format characters with values, and converts each value
  according to its format character before a single delegation.
* `experimental/patch_pyhula_direct.py` — `python313_compatible_pack`:
  converts arguments up front (rounding non-integral floats), delegates,
  and retries with a more aggressive conversion on a type error.
* `patch_struct_module` / `unpatch_struct_module` in `utils/struct_patch.py`
  rebind and restore the module-level `struct.pack` binding.

The embedding models Python values reaching these wrappers as `PyVal`
(CPython floats are modelled as rationals: every coercion the wrappers
apply to floats — truncation, rounding, integrality tests, comparisons —
factors through the rational value of the float).  CPython's
`struct.pack` itself is modelled by `originalPack` for the standard-size
integer field codes `bBhHiIlLqQ` with an optional byte-order prefix
character; its error classes are modelled by `StructError`.
-/

/-- A Python value of one of the types the repository's pack wrappers
branch on: `None`, `bool`, `int`, `float` (modelled by its rational
value), `str`, or an object exposing `__int__` returning the given
integer (and not an instance of the other listed types). -/
inductive PyVal where
  | none : PyVal
  | bool (b : Bool) : PyVal
  | int (n : ℤ) : PyVal
  | float (q : ℚ) : PyVal
  | str (s : String) : PyVal
  | obj (n : ℤ) : PyVal
  deriving DecidableEq, Repr

/-- Value of a list of decimal digit characters, most significant first. -/
def digitsToNat (l : List Char) : Nat :=
  l.foldl (fun a c => a * 10 + (c.toNat - 48)) 0

/-- Strip whitespace from both ends of a character list. -/
def trimWs (l : List Char) : List Char :=
  ((l.dropWhile Char.isWhitespace).reverse.dropWhile Char.isWhitespace).reverse

/-- Model of Python `int(s)` on a string: strip surrounding whitespace,
accept an optional sign followed by one or more ASCII decimal digits.
(Unicode digits and underscore separators of CPython are outside the
model.)  Returns `Option.none` where CPython raises `ValueError`. -/
def pyParseInt (s : String) : Option ℤ :=
  match trimWs s.data with
  | '-' :: rest =>
      if rest ≠ [] ∧ rest.all Char.isDigit then some (-(digitsToNat rest : ℤ)) else Option.none
  | '+' :: rest =>
      if rest ≠ [] ∧ rest.all Char.isDigit then some (digitsToNat rest : ℤ) else Option.none
  | l =>
      if l ≠ [] ∧ l.all Char.isDigit then some (digitsToNat l : ℤ) else Option.none

/-- Rational value of digit lists `ipart.fpart`. -/
def decimalVal (ipart fpart : List Char) : ℚ :=
  mkRat (digitsToNat ipart * 10 ^ fpart.length + digitsToNat fpart) (10 ^ fpart.length)

/-- Model of Python `float(s)` on a string, restricted to plain decimal
notation: optional sign, digits, optionally a point and more digits, with
at least one digit present.  (Exponent notation, `inf`/`nan` and unicode
digits are outside the model.)  Returns `Option.none` where CPython
raises `ValueError`. -/
def parseFloatOpt (s : String) : Option ℚ :=
  let core : List Char → Option ℚ := fun l =>
    let ip := l.takeWhile Char.isDigit
    match l.dropWhile Char.isDigit with
    | [] => if ip ≠ [] then some (decimalVal ip []) else Option.none
    | '.' :: fp =>
        if fp.all Char.isDigit ∧ (ip ≠ [] ∨ fp ≠ []) then some (decimalVal ip fp)
        else Option.none
    | _ => Option.none
  match trimWs s.data with
  | '-' :: rest => (core rest).map (fun q => -q)
  | '+' :: rest => core rest
  | l => core l

/-- Model of Python `int(x)` on a float: truncation toward zero
(`Int.tdiv` is T-division). -/
def ratTrunc (q : ℚ) : ℤ :=
  Int.tdiv q.num (q.den : ℤ)

/-- Model of Python `round(x)` on a float: round half to even.  With
`f = ⌊q⌋` the fractional part is `(q.num - f * q.den) / q.den`; it is
compared with one half by comparing `2 * (q.num - f * q.den)` with
`q.den`. -/
def pyRound (q : ℚ) : ℤ :=
  let f := q.floor
  let r2 := 2 * (q.num - f * (q.den : ℤ))
  if r2 < (q.den : ℤ) then f
  else if (q.den : ℤ) < r2 then f + 1
  else if f % 2 = 0 then f else f + 1

/-- Model of Python `float.is_integer`. -/
def isIntegerRat (q : ℚ) : Bool :=
  q.den = 1

/-- Model of Python `s.isdigit()` restricted to ASCII: nonempty and all
decimal digits. -/
def isPyDigit (s : String) : Bool :=
  decide (s.toList ≠ []) && s.toList.all Char.isDigit

/-- Model of `ord(s[0]) if s else 0` (python313_compat fallback for
unparsable strings). -/
def ordOrZero (s : String) : ℤ :=
  match s.toList with
  | [] => 0
  | c :: _ => (c.toNat : ℤ)

/-- Byte-order/alignment characters of the struct format mini-language,
exactly the ones `python313_compat.safe_struct_pack` strips from the
format string. -/
def isOrderChar (c : Char) : Bool :=
  c = '<' || c = '>' || c = '=' || c = '@' || c = '!'

/-- Order characters selecting big-endian packing. -/
def isBigOrderChar (c : Char) : Bool :=
  c = '>' || c = '!'

/-- The integer field codes of the struct format mini-language. -/
def intCodeChars : List Char :=
  ['b', 'B', 'h', 'H', 'i', 'I', 'l', 'L', 'q', 'Q']

/-- Whether a format character is an integer field code. -/
def isIntCode (c : Char) : Bool :=
  intCodeChars.contains c

/-- Standard size in bytes of an integer field code (struct standard
sizes, which equal the native Windows sizes for these codes). -/
def widthOf : Char → Nat
  | 'b' | 'B' => 1
  | 'h' | 'H' => 2
  | 'i' | 'I' | 'l' | 'L' => 4
  | 'q' | 'Q' => 8
  | _ => 0

/-- Least representable value of an integer field code. -/
def loOf : Char → ℤ
  | 'b' => -128
  | 'h' => -32768
  | 'i' | 'l' => -2147483648
  | 'q' => -9223372036854775808
  | _ => 0

/-- Greatest representable value of an integer field code. -/
def hiOf : Char → ℤ
  | 'B' => 255
  | 'b' => 127
  | 'H' => 65535
  | 'h' => 32767
  | 'I' | 'L' => 4294967295
  | 'i' | 'l' => 2147483647
  | 'Q' => 18446744073709551615
  | 'q' => 9223372036854775807
  | _ => 0

/-- Little-endian byte list of length `w` for a natural number (taken
modulo `256 ^ w`). -/
def leBytes : Nat → Nat → List Nat
  | 0, _ => []
  | w + 1, m => m % 256 :: leBytes w (m / 256)

/-- Bytes of one packed field: two's-complement little-endian encoding of
`n` in `widthOf c` bytes, reversed for big-endian order. -/
def fieldBytes (big : Bool) (c : Char) (n : ℤ) : List Nat :=
  let bs := leBytes (widthOf c) ((n % ((2 : ℤ) ^ (8 * widthOf c))).toNat)
  if big then bs.reverse else bs

/-- Errors of the modelled `struct.pack`.  CPython raises `struct.error`
with messages this model classifies by constructor:
`countMismatch` for "pack expected N items for packing (got M)",
`notInteger` for "required argument is not an integer" (a value without
`__index__` given for an integer code), `outOfRange` for the
"'c' format requires lo <= number <= hi" range errors, and `badChar`
for "bad char in struct format". -/
inductive StructError where
  | countMismatch : StructError
  | notInteger : StructError
  | outOfRange : StructError
  | badChar : StructError
  deriving DecidableEq, Repr

/-- The substring test of `struct_patch.safe_struct_pack`'s except
clause: `"required argument is not an integer" in str(e) or
"format requires" in str(e)`.  Type errors and range errors match;
count-mismatch and bad-format errors do not. -/
def matchesFallbackMsg : StructError → Bool
  | .notInteger => true
  | .outOfRange => true
  | _ => false

/-- Model of `struct.pack` argument conversion: CPython requires an
`__index__`-bearing argument for integer codes.  `int` and `bool` have
`__index__`; `None`, `float`, `str` and plain `__int__`-only objects do
not. -/
def PyVal.asIndex : PyVal → Option ℤ
  | .int n => some n
  | .bool b => some (if b then 1 else 0)
  | _ => Option.none

/-- Split a format character list into its byte-order flag (big-endian?)
and its field characters: at most one leading order character is
consumed, as in CPython. -/
def splitFormat : List Char → Bool × List Char
  | [] => (false, [])
  | c :: rest => if isOrderChar c then (isBigOrderChar c, rest) else (false, c :: rest)

/-- Pack the fields left to right, erroring at the first argument that is
not an integer or is out of range for its code. -/
def packFields (big : Bool) : List Char → List PyVal → Except StructError (List Nat)
  | [], [] => .ok []
  | c :: cs, v :: vs =>
      match v.asIndex with
      | Option.none => .error .notInteger
      | some n =>
          if n < loOf c ∨ hiOf c < n then .error .outOfRange
          else
            match packFields big cs vs with
            | .ok rest => .ok (fieldBytes big c n ++ rest)
            | .error e => .error e
  | _, _ => .error .countMismatch

/-- Model of CPython `struct.pack` (the `_original_struct_pack` the
wrappers capture), restricted to formats whose fields are all standard
integer codes: the format is parsed first (bad characters rejected), the
argument count is checked against the field count, then fields are
packed left to right. -/
def originalPack (fmt : List Char) (args : List PyVal) : Except StructError (List Nat) :=
  let p := splitFormat fmt
  if p.2.any (fun c => !isIntCode c) then .error .badChar
  else if args.length ≠ p.2.length then .error .countMismatch
  else packFields p.1 p.2 args

/-- Sum of the field widths of a format. -/
def widthSum (fmt : List Char) : Nat :=
  (((splitFormat fmt).2).map widthOf).sum

instance {ε α : Type} [DecidableEq ε] [DecidableEq α] : DecidableEq (Except ε α) := fun x y =>
  match x, y with
  | .ok a, .ok b => if h : a = b then .isTrue (by rw [h]) else .isFalse (by simp [h])
  | .error e, .error f => if h : e = f then .isTrue (by rw [h]) else .isFalse (by simp [h])
  | .ok _, .error _ => .isFalse (by simp)
  | .error _, .ok _ => .isFalse (by simp)

namespace StructPatch

/-- The format characters `struct_patch.safe_struct_pack` collects:
`[c for c in format_str if c in 'BbHhIiLlQqfd']`. -/
def isPatchFmtChar (c : Char) : Bool :=
  c = 'B' || c = 'b' || c = 'H' || c = 'h' || c = 'I' || c = 'i' ||
  c = 'L' || c = 'l' || c = 'Q' || c = 'q' || c = 'f' || c = 'd'

/-- The format character chosen for argument `i`:
`format_chars[i] if i < len(format_chars) else format_chars[-1] if format_chars else 'B'`. -/
def fmtCharAt (fcs : List Char) (i : Nat) : Char :=
  if h : i < fcs.length then fcs.get ⟨i, h⟩
  else
    match fcs.getLast? with
    | some c => c
    | Option.none => 'B'

/-- The integer-conversion chain of `struct_patch.safe_struct_pack`:
`None` to 0; floats via `int(arg)` (truncation toward zero); strings via
`int(arg)` with fallback 0 on `ValueError`; anything exposing `__int__`
via `int(arg)`. -/
def structPatchToInt : PyVal → ℤ
  | .none => 0
  | .float q => ratTrunc q
  | .str s => (pyParseInt s).getD 0
  | .bool b => if b then 1 else 0
  | .int n => n
  | .obj n => n

/-- The bounds-checking chain of `struct_patch.safe_struct_pack`,
character by character as in the source; characters without a branch
(such as `f` and `d`) leave the value unchanged. -/
def clampFor (c : Char) (n : ℤ) : ℤ :=
  if c = 'B' then max 0 (min 255 n)
  else if c = 'b' then max (-128) (min 127 n)
  else if c = 'H' then max 0 (min 65535 n)
  else if c = 'h' then max (-32768) (min 32767 n)
  else if c = 'I' ∨ c = 'L' then max 0 (min 4294967295 n)
  else if c = 'i' ∨ c = 'l' then max (-2147483648) (min 2147483647 n)
  else if c = 'Q' then max 0 (min 18446744073709551615 n)
  else if c = 'q' then max (-9223372036854775808) (min 9223372036854775807 n)
  else n

/-- The converted argument list of `struct_patch.safe_struct_pack`'s
fallback path. -/
def convertedArgs (fmt : List Char) (args : List PyVal) : List PyVal :=
  (args.enum).map fun p =>
    PyVal.int (clampFor (fmtCharAt (fmt.filter isPatchFmtChar) p.1) (structPatchToInt p.2))

/-- Embedding of `utils/struct_patch.py` `safe_struct_pack`: try the
original packer; on an error whose message matches the type/range
substring test, convert and clamp every argument and retry; re-raise
other errors. -/
def safe_struct_pack (fmt : List Char) (args : List PyVal) : Except StructError (List Nat) :=
  match originalPack fmt args with
  | .ok bs => .ok bs
  | .error e =>
      if matchesFallbackMsg e then originalPack fmt (convertedArgs fmt args)
      else .error e

end StructPatch

namespace Python313Compat

/-- Model of Python `int(value)` on the values reaching the final branch
of the python313_compat conversion (those with `__int__`); total on
`PyVal` for definitional convenience, though `str`/`float`/`None` are
handled by earlier branches of `convertOne`. -/
def pyIntPlain : PyVal → ℤ
  | .none => 0
  | .bool b => if b then 1 else 0
  | .int n => n
  | .float q => ratTrunc q
  | .str s => (pyParseInt s).getD 0
  | .obj n => n

/-- The integer format characters tested by
`python313_compat.safe_struct_pack`: `fmt_char in 'bBhHiIlLqQ'`. -/
def isCompatIntChar (c : Char) : Bool :=
  c = 'b' || c = 'B' || c = 'h' || c = 'H' || c = 'i' || c = 'I' ||
  c = 'l' || c = 'L' || c = 'q' || c = 'Q'

/-- Per-pair conversion of `utils/python313_compat.py` `safe_struct_pack`
(the same code is inlined as `_safe_struct_pack` in
`src/pyhula/__init__.py`): `None` becomes 0 for every format character;
for integer format characters, strings are parsed with `int` falling
back to `ord` of the first character (0 for the empty string), floats
are truncated, and other values pass through `int` with bounds applied
only for the `B` format; for non-integer format characters the value is
used as-is. -/
def convertOne (fc : Char) (v : PyVal) : PyVal :=
  if v = PyVal.none then PyVal.int 0
  else if isCompatIntChar fc then
    match v with
    | .str s =>
        match pyParseInt s with
        | some n => PyVal.int n
        | Option.none => PyVal.int (ordOrZero s)
    | .float q => PyVal.int (ratTrunc q)
    | w =>
        let n := pyIntPlain w
        let n2 := if fc = 'B' ∧ 255 < n then 255 else if fc = 'B' ∧ n < 0 then 0 else n
        PyVal.int n2
  else v

/-- Embedding of `utils/python313_compat.py` `safe_struct_pack` (and of
`src/pyhula/__init__.py` `_safe_struct_pack`, whose body is identical):
strip the byte-order characters from the format string, zip the
remaining characters with the values (so excess values are dropped by
`zip`), convert each pair, and delegate once to the original packer with
the full format string. -/
def safe_struct_pack (fmt : List Char) (values : List PyVal) : Except StructError (List Nat) :=
  let fcs := fmt.filter (fun c => !isOrderChar c)
  originalPack fmt ((fcs.zip values).map fun p => convertOne p.1 p.2)

end Python313Compat

namespace PatchDirect

/-- First-pass conversion of `experimental/patch_pyhula_direct.py`
`python313_compatible_pack`: floats become `int(arg)` if integral, else
`round(arg)` (half to even); booleans become 0/1; strings parse as
`int(float(arg))` when they contain a point, else `int(arg)`, and pass
through unchanged when parsing raises; `None` becomes 0; objects with
`__int__` are converted. -/
def convertOne : PyVal → PyVal
  | .float q => if isIntegerRat q then PyVal.int (ratTrunc q) else PyVal.int (pyRound q)
  | .bool b => PyVal.int (if b then 1 else 0)
  | .str s =>
      if s.data.contains '.' then
        match parseFloatOpt s with
        | some q => PyVal.int (ratTrunc q)
        | Option.none => PyVal.str s
      else
        match pyParseInt s with
        | some n => PyVal.int n
        | Option.none => PyVal.str s
  | .none => PyVal.int 0
  | .int n => PyVal.int n
  | .obj n => PyVal.int n

/-- Second, more aggressive conversion of the same function, run when
the first delegation fails with "required argument is not an integer":
ints and bools via `int`; floats again truncated-or-rounded; strings via
`int(arg) if arg.isdigit() else 0`; `None` to 0; everything else via
`int(arg)` with fallback 0. -/
def aggressiveOne : PyVal → PyVal
  | .int n => PyVal.int n
  | .bool b => PyVal.int (if b then 1 else 0)
  | .float q => if isIntegerRat q then PyVal.int (ratTrunc q) else PyVal.int (pyRound q)
  | .str s => PyVal.int (if isPyDigit s then (pyParseInt s).getD 0 else 0)
  | .none => PyVal.int 0
  | .obj n => PyVal.int n

/-- Embedding of `experimental/patch_pyhula_direct.py`
`python313_compatible_pack`: convert all arguments, delegate; if the
original packer raises the not-an-integer error, retry once with the
aggressive conversion; other errors (including range errors — this
variant never clamps) propagate. -/
def python313_compatible_pack (fmt : List Char) (args : List PyVal) :
    Except StructError (List Nat) :=
  let conv := args.map convertOne
  match originalPack fmt conv with
  | .ok bs => .ok bs
  | .error e =>
      if e = StructError.notInteger then originalPack fmt (conv.map aggressiveOne)
      else .error e

end PatchDirect

/-- The two values ever assigned to the module-level `struct.pack`
binding by `utils/struct_patch.py`: the captured original
(`_original_struct_pack`, saved at import time and never reassigned) and
the wrapper `safe_struct_pack`. -/
inductive PackBinding where
  | original : PackBinding
  | safePatched : PackBinding
  deriving DecidableEq, Repr

/-- The mutable global state the struct_patch module touches: the
current binding of `struct.pack`. -/
structure StructModuleState where
  packBinding : PackBinding
  deriving DecidableEq, Repr

/-- State of the struct module when `utils/struct_patch.py` is imported:
`struct.pack` still holds the original packer, which the module captures
as `_original_struct_pack`. -/
def moduleInitState : StructModuleState :=
  { packBinding := PackBinding.original }

/-- Embedding of `patch_struct_module`: `struct.pack = safe_struct_pack`. -/
def patch_struct_module (s : StructModuleState) : StructModuleState :=
  { s with packBinding := PackBinding.safePatched }

/-- Embedding of `unpatch_struct_module`:
`struct.pack = _original_struct_pack`. -/
def unpatch_struct_module (s : StructModuleState) : StructModuleState :=
  { s with packBinding := PackBinding.original }

/-- Call semantics of `safe_struct_pack` against the global struct-module
state: the function's only free reference is the module constant
`_original_struct_pack` (assigned once at import and never rebound, so
it is a constant of the model, not state), it assigns no global and
performs no I/O, hence a call returns its pure value and leaves the
state unchanged. -/
def callSafeStructPack (s : StructModuleState) (fmt : List Char) (args : List PyVal) :
    Except StructError (List Nat) × StructModuleState :=
  (StructPatch.safe_struct_pack fmt args, s)

/-! ### Helper lemmas -/

lemma int_code_cases {c : Char} (hc : isIntCode c = true) :
    c = 'b' ∨ c = 'B' ∨ c = 'h' ∨ c = 'H' ∨ c = 'i' ∨ c = 'I' ∨
    c = 'l' ∨ c = 'L' ∨ c = 'q' ∨ c = 'Q' := by
  simpa [isIntCode, intCodeChars, List.contains, List.elem_eq_mem, List.mem_cons] using hc

lemma asIndex_toInt {v : PyVal} {n : ℤ} (h : PyVal.asIndex v = some n) :
    StructPatch.structPatchToInt v = n := by
  cases v <;> simp_all [PyVal.asIndex, StructPatch.structPatchToInt]

lemma originalPack_single_unfold {c : Char} (hord : isOrderChar c = false)
    (hic : isIntCode c = true) (v : PyVal) :
    originalPack [c] [v] = packFields false [c] [v] := by
  simp [originalPack, splitFormat, hord, hic]

lemma originalPack_single_idx {c : Char} (hord : isOrderChar c = false)
    (hic : isIntCode c = true) {v : PyVal} {n : ℤ} (hidx : PyVal.asIndex v = some n)
    (h1 : loOf c ≤ n) (h2 : n ≤ hiOf c) :
    originalPack [c] [v] = .ok (fieldBytes false c n) := by
  rw [originalPack_single_unfold hord hic]
  simp only [packFields, hidx]
  rw [if_neg (by omega)]
  simp [packFields]

lemma originalPack_single_ok {c : Char} (hord : isOrderChar c = false) (hic : isIntCode c = true)
    (m : ℤ) (h1 : loOf c ≤ m) (h2 : m ≤ hiOf c) :
    originalPack [c] [PyVal.int m] = .ok (fieldBytes false c m) :=
  originalPack_single_idx hord hic rfl h1 h2

lemma originalPack_single_range {c : Char} (hord : isOrderChar c = false)
    (hic : isIntCode c = true) {v : PyVal} {n : ℤ} (hidx : PyVal.asIndex v = some n)
    (h : n < loOf c ∨ hiOf c < n) :
    originalPack [c] [v] = .error .outOfRange := by
  rw [originalPack_single_unfold hord hic]
  simp only [packFields, hidx]
  rw [if_pos h]

lemma originalPack_single_type {c : Char} (hord : isOrderChar c = false)
    (hic : isIntCode c = true) {v : PyVal} (hv : PyVal.asIndex v = Option.none) :
    originalPack [c] [v] = .error .notInteger := by
  rw [originalPack_single_unfold hord hic]
  simp only [packFields, hv]

lemma safe_eq_of_ok {fmt : List Char} {args : List PyVal} {bs : List Nat}
    (h : originalPack fmt args = .ok bs) :
    StructPatch.safe_struct_pack fmt args = .ok bs := by
  unfold StructPatch.safe_struct_pack
  rw [h]

lemma safe_eq_fallback {fmt : List Char} {args : List PyVal} {e : StructError}
    (h : originalPack fmt args = .error e) (hm : matchesFallbackMsg e = true) :
    StructPatch.safe_struct_pack fmt args =
      originalPack fmt (StructPatch.convertedArgs fmt args) := by
  unfold StructPatch.safe_struct_pack
  rw [h]
  simp [hm]

lemma convertedArgs_single {c : Char} (hfc : StructPatch.isPatchFmtChar c = true) (v : PyVal) :
    StructPatch.convertedArgs [c] [v] =
      [PyVal.int (StructPatch.clampFor c (StructPatch.structPatchToInt v))] := by
  simp [StructPatch.convertedArgs, List.filter, hfc, StructPatch.fmtCharAt]

/-- Single-field behavior of `struct_patch.safe_struct_pack`: for every
integer field code and every input value, the result is the packed bytes
of the converted value clamped to the code's range. -/
lemma safe_single (c : Char) (hord : isOrderChar c = false) (hic : isIntCode c = true)
    (hfc : StructPatch.isPatchFmtChar c = true)
    (hcl : ∀ m : ℤ, StructPatch.clampFor c m = max (loOf c) (min (hiOf c) m))
    (hlohi : loOf c ≤ hiOf c) (v : PyVal) :
    StructPatch.safe_struct_pack [c] [v] =
      .ok (fieldBytes false c (max (loOf c) (min (hiOf c) (StructPatch.structPatchToInt v)))) := by
  have hclamp_ok :
      originalPack [c] [PyVal.int (StructPatch.clampFor c (StructPatch.structPatchToInt v))] =
      .ok (fieldBytes false c (max (loOf c) (min (hiOf c) (StructPatch.structPatchToInt v)))) := by
    rw [hcl]
    exact originalPack_single_ok hord hic
      (max (loOf c) (min (hiOf c) (StructPatch.structPatchToInt v))) (by omega) (by omega)
  match hidx : PyVal.asIndex v with
  | Option.none =>
      rw [safe_eq_fallback (originalPack_single_type hord hic hidx) rfl,
        convertedArgs_single hfc]
      exact hclamp_ok
  | some n =>
      have htn : StructPatch.structPatchToInt v = n := asIndex_toInt hidx
      by_cases hr : n < loOf c ∨ hiOf c < n
      · rw [safe_eq_fallback (originalPack_single_range hord hic hidx hr) rfl,
          convertedArgs_single hfc]
        exact hclamp_ok
      · rw [safe_eq_of_ok (originalPack_single_idx hord hic hidx (by omega) (by omega)), htn]
        congr 2
        omega

lemma leBytes_length (w : Nat) : ∀ m, (leBytes w m).length = w := by
  induction w with
  | zero => intro m; rfl
  | succ k ih => intro m; simp [leBytes, ih]

lemma fieldBytes_length (big : Bool) (c : Char) (n : ℤ) :
    (fieldBytes big c n).length = widthOf c := by
  cases big <;> simp [fieldBytes, leBytes_length]

lemma packFields_length (big : Bool) :
    ∀ (cs : List Char) (vs : List PyVal) (bs : List Nat),
      packFields big cs vs = .ok bs → bs.length = (cs.map widthOf).sum := by
  intro cs
  induction cs with
  | nil =>
      intro vs bs h
      cases vs with
      | nil => simp [packFields] at h; simp [h]
      | cons v vs => simp [packFields] at h
  | cons c cs ih =>
      intro vs bs h
      cases vs with
      | nil => simp [packFields] at h
      | cons v vs =>
          simp only [packFields] at h
          match hidx : PyVal.asIndex v with
          | Option.none => simp only [hidx] at h; simp at h
          | some n =>
              simp only [hidx] at h
              by_cases hr : n < loOf c ∨ hiOf c < n
              · rw [if_pos hr] at h; simp at h
              · rw [if_neg hr] at h
                match hrec : packFields big cs vs with
                | .ok rest =>
                    simp only [hrec, Except.ok.injEq] at h
                    subst h
                    simp [List.length_append, fieldBytes_length, ih vs rest hrec]
                | .error e => simp only [hrec] at h; simp at h

lemma originalPack_length {fmt : List Char} {args : List PyVal} {bs : List Nat}
    (h : originalPack fmt args = .ok bs) : bs.length = widthSum fmt := by
  simp only [originalPack] at h
  by_cases h1 : ((splitFormat fmt).2.any fun c => !isIntCode c) = true
  · rw [if_pos h1] at h; simp at h
  · rw [if_neg h1] at h
    by_cases h2 : args.length ≠ (splitFormat fmt).2.length
    · rw [if_pos h2] at h; simp at h
    · rw [if_neg h2] at h
      exact packFields_length _ _ _ _ h

lemma safe_eq_passthrough {fmt : List Char} {args : List PyVal} {e : StructError}
    (h : originalPack fmt args = .error e) (hm : matchesFallbackMsg e = false) :
    StructPatch.safe_struct_pack fmt args = .error e := by
  unfold StructPatch.safe_struct_pack
  rw [h]
  simp [hm]

/-- Single-field behavior of `struct_patch.safe_struct_pack` for every
integer field code, by case analysis on the ten codes. -/
lemma safe_single_any {c : Char} (hc : isIntCode c = true) (v : PyVal) :
    StructPatch.safe_struct_pack [c] [v] =
      .ok (fieldBytes false c (max (loOf c) (min (hiOf c) (StructPatch.structPatchToInt v)))) := by
  rcases int_code_cases hc with rfl | rfl | rfl | rfl | rfl | rfl | rfl | rfl | rfl | rfl <;>
    (apply safe_single <;> first | rfl | (intro m; rfl) | decide)

lemma originalPack_count {fmt : List Char} {args : List PyVal}
    (h1 : ((splitFormat fmt).2.any fun c => !isIntCode c) = false)
    (h2 : args.length ≠ (splitFormat fmt).2.length) :
    originalPack fmt args = .error .countMismatch := by
  simp only [originalPack, h1]
  simp only [Bool.false_eq_true, if_false]
  rw [if_pos h2]

lemma safe_len {fmt : List Char} {args : List PyVal} {bs : List Nat}
    (h : StructPatch.safe_struct_pack fmt args = .ok bs) : bs.length = widthSum fmt := by
  unfold StructPatch.safe_struct_pack at h
  match ho : originalPack fmt args with
  | .ok bs2 =>
      simp only [ho, Except.ok.injEq] at h
      subst h
      exact originalPack_length ho
  | .error e =>
      simp only [ho] at h
      by_cases hm : matchesFallbackMsg e = true
      · rw [if_pos hm] at h
        exact originalPack_length h
      · rw [if_neg hm] at h
        simp at h

lemma compat_len {fmt : List Char} {vals : List PyVal} {bs : List Nat}
    (h : Python313Compat.safe_struct_pack fmt vals = .ok bs) : bs.length = widthSum fmt := by
  unfold Python313Compat.safe_struct_pack at h
  exact originalPack_length h

/-! ### Claim theorems -/

/-- C1 counterexample: for the non-numeric string "abc" paired with an
unsigned-byte field, pack does not fail — the python313_compat variant
silently substitutes the character code of the first character
(ord of the letter a = 97) and the struct_patch variant silently
substitutes 0, contradicting the claim that a ValueUnrepresentable error
is raised and that neither substitution ever happens. -/
theorem claim_C1_counterexample :
    Python313Compat.safe_struct_pack ['B'] [PyVal.str "abc"] = .ok [97] ∧
    StructPatch.safe_struct_pack ['B'] [PyVal.str "abc"] = .ok [0] := by
  decide

/-- C1 amended: for every string that does not parse as an integer,
pack does not raise: the struct_patch variant packs 0 (its `int(s)`
fallback), and the python313_compat or pyhula `__init__` variant converts
the value to the character code of the first character (0 for the empty
string). -/
theorem claim_C1_amended :
    (∀ s : String, pyParseInt s = Option.none →
      StructPatch.safe_struct_pack ['B'] [PyVal.str s] = .ok [0]) ∧
    (∀ s : String, pyParseInt s = Option.none →
      Python313Compat.convertOne 'B' (PyVal.str s) = PyVal.int (ordOrZero s)) := by
  constructor
  · intro s h
    have h2 : StructPatch.structPatchToInt (PyVal.str s) = 0 := by
      simp [StructPatch.structPatchToInt, h]
    have hlo : loOf 'B' = 0 := rfl
    have hhi : hiOf 'B' = 255 := rfl
    have h3 : max (0 : ℤ) (min 255 0) = 0 := by omega
    rw [safe_single_any (show isIntCode 'B' = true from rfl) (PyVal.str s), h2, hlo, hhi, h3]
    decide
  · intro s h
    have huf : Python313Compat.convertOne 'B' (PyVal.str s) =
        (match pyParseInt s with
         | some n => PyVal.int n
         | Option.none => PyVal.int (ordOrZero s)) := rfl
    rw [huf]
    simp only [h]

/-- C1 witness: the amended claim evaluated at the string "abc". -/
theorem claim_C1_witness :
    pyParseInt "abc" = Option.none ∧
    StructPatch.safe_struct_pack ['B'] [PyVal.str "abc"] = .ok [0] ∧
    Python313Compat.convertOne 'B' (PyVal.str "abc") = PyVal.int (ordOrZero "abc") :=
  ⟨by decide, claim_C1_amended.1 "abc" (by decide), claim_C1_amended.2 "abc" (by decide)⟩

/-- C2 counterexample: for the two-byte unsigned field H, the
python313_compat (and pyhula `__init__`) variant does not clamp the
out-of-range value 70000 to the bound 65535 — the underlying packer's
range error propagates — contradicting the claim that pack clamps at
every width. -/
theorem claim_C2_counterexample :
    Python313Compat.safe_struct_pack ['H'] [PyVal.int 70000] = .error .outOfRange ∧
    Python313Compat.safe_struct_pack ['H'] [PyVal.int 65535] = .ok [255, 255] ∧
    (Except.error StructError.outOfRange ≠
      (Except.ok [255, 255] : Except StructError (List Nat))) := by
  decide

/-- C2 amended: the struct_patch variant clamps out-of-range integers to
the nearest bound of the field's representable range at every width
1/2/4/8, signed or unsigned; the python313_compat and pyhula `__init__`
variant clamps only the unsigned-byte format B (to the range 0..255) and
propagates the range error for every other width.  The claim's
unsigned-byte examples hold in both variants. -/
theorem claim_C2_amended :
    (∀ c : Char, isIntCode c = true → ∀ n : ℤ,
      StructPatch.safe_struct_pack [c] [PyVal.int n] =
        .ok (fieldBytes false c (max (loOf c) (min (hiOf c) n)))) ∧
    (∀ n : ℤ, Python313Compat.convertOne 'B' (PyVal.int n) =
      PyVal.int (max 0 (min 255 n))) ∧
    (StructPatch.safe_struct_pack ['B'] [PyVal.int 256] =
      StructPatch.safe_struct_pack ['B'] [PyVal.int 255]) ∧
    (StructPatch.safe_struct_pack ['B'] [PyVal.int (-1)] =
      StructPatch.safe_struct_pack ['B'] [PyVal.int 0]) ∧
    (Python313Compat.safe_struct_pack ['B'] [PyVal.int 256] =
      Python313Compat.safe_struct_pack ['B'] [PyVal.int 255]) ∧
    (Python313Compat.safe_struct_pack ['B'] [PyVal.int (-1)] =
      Python313Compat.safe_struct_pack ['B'] [PyVal.int 0]) := by
  refine ⟨?_, ?_, by decide, by decide, by decide, by decide⟩
  · intro c hc n
    exact safe_single_any hc (PyVal.int n)
  · intro n
    have huf : Python313Compat.convertOne 'B' (PyVal.int n) =
        PyVal.int (if 'B' = 'B' ∧ 255 < n then 255
          else if 'B' = 'B' ∧ n < 0 then 0 else n) := rfl
    rw [huf]
    congr 1
    split_ifs <;> simp_all <;> omega

/-- C2 witness: the amended clamping claim evaluated at the two-byte
field H with value 70000. -/
theorem claim_C2_witness :
    isIntCode 'H' = true ∧
    StructPatch.safe_struct_pack ['H'] [PyVal.int 70000] =
      .ok (fieldBytes false 'H' (max (loOf 'H') (min (hiOf 'H') 70000))) :=
  ⟨by decide, claim_C2_amended.1 'H' (by decide) 70000⟩

/-- C3 counterexample: the experimental patch_pyhula_direct variant
rounds the float 3.9 to 4 instead of truncating it to 3, so
pack of 3.9 differs from pack of 3 there, contradicting the claim that
pack truncates toward zero. -/
theorem claim_C3_counterexample :
    PatchDirect.python313_compatible_pack ['B'] [PyVal.float (mkRat 39 10)] = .ok [4] ∧
    PatchDirect.python313_compatible_pack ['B'] [PyVal.int 3] = .ok [3] ∧
    (Except.ok [4] ≠ (Except.ok [3] : Except StructError (List Nat))) := by
  decide

/-- C3 amended: the struct_patch variant (for every integer field code)
and the python313_compat conversion truncate floats toward zero, and
struct_patch clamps -3.9 to 0 for the unsigned byte; but the
experimental patch_pyhula_direct variant rounds non-integral floats
(half to even) instead of truncating, and does not clamp. -/
theorem claim_C3_amended :
    (∀ c : Char, isIntCode c = true → ∀ q : ℚ,
      StructPatch.safe_struct_pack [c] [PyVal.float q] =
        StructPatch.safe_struct_pack [c] [PyVal.int (ratTrunc q)]) ∧
    (∀ q : ℚ, Python313Compat.convertOne 'B' (PyVal.float q) = PyVal.int (ratTrunc q)) ∧
    (∀ q : ℚ, isIntegerRat q = false →
      PatchDirect.convertOne (PyVal.float q) = PyVal.int (pyRound q)) ∧
    (StructPatch.safe_struct_pack ['B'] [PyVal.float (mkRat 39 10)] = .ok [3]) ∧
    (StructPatch.safe_struct_pack ['B'] [PyVal.float (mkRat (-39) 10)] = .ok [0]) := by
  refine ⟨?_, ?_, ?_, by decide, by decide⟩
  · intro c hc q
    rw [safe_single_any hc (PyVal.float q), safe_single_any hc (PyVal.int (ratTrunc q))]
    rfl
  · intro q
    rfl
  · intro q h
    have huf : PatchDirect.convertOne (PyVal.float q) =
        (if isIntegerRat q then PyVal.int (ratTrunc q) else PyVal.int (pyRound q)) := rfl
    rw [huf, if_neg (by simp [h])]

/-- C3 witness: the amended truncation claim evaluated at 3.9 for the
unsigned-byte field, and the rounding branch at 3.9. -/
theorem claim_C3_witness :
    isIntCode 'B' = true ∧
    StructPatch.safe_struct_pack ['B'] [PyVal.float (mkRat 39 10)] =
      StructPatch.safe_struct_pack ['B'] [PyVal.int (ratTrunc (mkRat 39 10))] ∧
    isIntegerRat (mkRat 39 10) = false ∧
    PatchDirect.convertOne (PyVal.float (mkRat 39 10)) = PyVal.int (pyRound (mkRat 39 10)) :=
  ⟨by decide, claim_C3_amended.1 'B' (by decide) (mkRat 39 10), by decide,
    claim_C3_amended.2.2.1 (mkRat 39 10) (by decide)⟩

/-- C4 counterexample: the python313_compat (and pyhula `__init__`)
variant silently ignores the excess value 2 — zip truncates the value
list to the format's single field — and returns packed bytes instead of
a field-count error, contradicting the claim that excess values are
never silently ignored. -/
theorem claim_C4_counterexample :
    Python313Compat.safe_struct_pack ['B'] [PyVal.int 1, PyVal.int 2] = .ok [1] ∧
    ((Except.ok [1] : Except StructError (List Nat)) ≠ .error .countMismatch) := by
  decide

/-- C4 amended: in the struct_patch variant every count mismatch (excess
or missing values, over any all-integer format) propagates the
underlying packer's count-mismatch error; missing values also error in
the python313_compat variant (the underlying packer still sees too few
values); but excess values are silently dropped by the python313_compat
variant, as the counterexample shows. -/
theorem claim_C4_amended :
    (∀ (fmt : List Char) (args : List PyVal),
      ((splitFormat fmt).2.any fun c => !isIntCode c) = false →
      args.length ≠ (splitFormat fmt).2.length →
      StructPatch.safe_struct_pack fmt args = .error .countMismatch) ∧
    (StructPatch.safe_struct_pack ['B', 'B'] [PyVal.int 1] = .error .countMismatch) ∧
    (Python313Compat.safe_struct_pack ['B', 'B'] [PyVal.int 1] = .error .countMismatch) := by
  refine ⟨?_, by decide, by decide⟩
  intro fmt args h1 h2
  exact safe_eq_passthrough (originalPack_count h1 h2) rfl

/-- C4 witness: the amended count-mismatch claim evaluated at a
two-field unsigned-byte format with one value. -/
theorem claim_C4_witness :
    (((splitFormat ['B', 'B']).2.any fun c => !isIntCode c) = false) ∧
    ([PyVal.int 1].length ≠ (splitFormat ['B', 'B']).2.length) ∧
    StructPatch.safe_struct_pack ['B', 'B'] [PyVal.int 1] = .error .countMismatch :=
  ⟨by decide, by decide, claim_C4_amended.1 ['B', 'B'] [PyVal.int 1] (by decide) (by decide)⟩

/-- C5 counterexample: in the primary struct_patch variant the numeric
string "3.9" does not encode as 3 — `int` fails on it and the fallback
packs 0 — contradicting the claim that strings with a decimal point are
parsed as floats and truncated. -/
theorem claim_C5_counterexample :
    StructPatch.safe_struct_pack ['B'] [PyVal.str "3.9"] = .ok [0] ∧
    StructPatch.safe_struct_pack ['B'] [PyVal.int 3] = .ok [3] ∧
    ((Except.ok [0] : Except StructError (List Nat)) ≠ .ok [3]) := by
  decide

/-- C5 amended: only the experimental patch_pyhula_direct variant parses
numeric strings as floats when they contain a decimal point (truncating
toward zero) and as integers otherwise; the primary struct_patch variant
parses only integer strings and packs 0 for any other string. -/
theorem claim_C5_amended :
    (∀ (s : String) (q : ℚ), s.data.contains '.' = true → parseFloatOpt s = some q →
      PatchDirect.convertOne (PyVal.str s) = PyVal.int (ratTrunc q)) ∧
    (∀ (s : String) (n : ℤ), s.data.contains '.' = false → pyParseInt s = some n →
      PatchDirect.convertOne (PyVal.str s) = PyVal.int n) ∧
    (PatchDirect.python313_compatible_pack ['B'] [PyVal.str "3.9"] = .ok [3]) ∧
    (PatchDirect.python313_compatible_pack ['B'] [PyVal.str "5"] = .ok [5]) ∧
    (StructPatch.safe_struct_pack ['B'] [PyVal.str "3.9"] = .ok [0]) := by
  refine ⟨?_, ?_, by decide, by decide, by decide⟩
  · intro s q h1 h2
    simp only [PatchDirect.convertOne]
    rw [if_pos h1]
    simp only [h2]
  · intro s n h1 h2
    simp only [PatchDirect.convertOne]
    rw [if_neg (by rw [h1]; simp)]
    simp only [h2]

/-- C5 witness: the amended string-parsing claim evaluated at "3.9" and
"5". -/
theorem claim_C5_witness :
    ("3.9".data.contains '.' = true) ∧ (parseFloatOpt "3.9" = some (mkRat 39 10)) ∧
    PatchDirect.convertOne (PyVal.str "3.9") = PyVal.int (ratTrunc (mkRat 39 10)) ∧
    ("5".data.contains '.' = false) ∧ (pyParseInt "5" = some 5) ∧
    PatchDirect.convertOne (PyVal.str "5") = PyVal.int 5 :=
  ⟨by decide, by decide, claim_C5_amended.1 "3.9" (mkRat 39 10) (by decide) (by decide),
    by decide, by decide, claim_C5_amended.2.1 "5" 5 (by decide) (by decide)⟩

/-- C6: pack of the five-field unsigned-byte format with values
254, 0, 0, 1, 1 yields exactly the bytes FE 00 00 01 01 (in both the
struct_patch and python313_compat variants), and every successful pack
returns a byte sequence whose length equals the sum of the field widths
of the format. -/
theorem claim_C6 :
    (StructPatch.safe_struct_pack ['B', 'B', 'B', 'B', 'B']
      [PyVal.int 254, PyVal.int 0, PyVal.int 0, PyVal.int 1, PyVal.int 1] =
      .ok [254, 0, 0, 1, 1]) ∧
    (Python313Compat.safe_struct_pack ['B', 'B', 'B', 'B', 'B']
      [PyVal.int 254, PyVal.int 0, PyVal.int 0, PyVal.int 1, PyVal.int 1] =
      .ok [254, 0, 0, 1, 1]) ∧
    (∀ (fmt : List Char) (args : List PyVal) (bs : List Nat),
      StructPatch.safe_struct_pack fmt args = .ok bs → bs.length = widthSum fmt) ∧
    (∀ (fmt : List Char) (vals : List PyVal) (bs : List Nat),
      Python313Compat.safe_struct_pack fmt vals = .ok bs → bs.length = widthSum fmt) := by
  refine ⟨by decide, by decide, ?_, ?_⟩
  · intro fmt args bs h
    exact safe_len h
  · intro fmt vals bs h
    exact compat_len h

/-- C6 witness: the length claim evaluated at the five-byte header
example. -/
theorem claim_C6_witness :
    StructPatch.safe_struct_pack ['B', 'B', 'B', 'B', 'B']
      [PyVal.int 254, PyVal.int 0, PyVal.int 0, PyVal.int 1, PyVal.int 1] =
      .ok [254, 0, 0, 1, 1] ∧
    ([254, 0, 0, 1, 1] : List Nat).length = widthSum ['B', 'B', 'B', 'B', 'B'] :=
  ⟨by decide,
    claim_C6.2.2.1 ['B', 'B', 'B', 'B', 'B']
      [PyVal.int 254, PyVal.int 0, PyVal.int 0, PyVal.int 1, PyVal.int 1]
      [254, 0, 0, 1, 1] (by decide)⟩

/-- C7: safe_struct_pack is deterministic and side-effect free — a call
from any global struct-module state returns the same result as from any
other state (the result is a pure function of the format and arguments)
and leaves the state exactly as it was. -/
theorem claim_C7 :
    ∀ (s₁ s₂ : StructModuleState) (fmt : List Char) (args : List PyVal),
      (callSafeStructPack s₁ fmt args).1 = (callSafeStructPack s₂ fmt args).1 ∧
      (callSafeStructPack s₁ fmt args).2 = s₁ ∧
      callSafeStructPack s₁ fmt args = (StructPatch.safe_struct_pack fmt args, s₁) :=
  fun _ _ _ _ => ⟨rfl, rfl, rfl⟩

/-- C8: whenever the original strict packer accepts a format and
argument list, the patched struct_patch safe_struct_pack returns exactly
the same bytes — coercion and clamping happen only after the original
pack raises. -/
theorem claim_C8 :
    ∀ (fmt : List Char) (args : List PyVal) (bs : List Nat),
      originalPack fmt args = .ok bs → StructPatch.safe_struct_pack fmt args = .ok bs :=
  fun _ _ _ h => safe_eq_of_ok h

/-- C8 witness: the refinement claim evaluated at a one-byte format with
the in-range value 7. -/
theorem claim_C8_witness :
    originalPack ['B'] [PyVal.int 7] = .ok [7] ∧
    StructPatch.safe_struct_pack ['B'] [PyVal.int 7] = .ok [7] :=
  ⟨by decide, claim_C8 ['B'] [PyVal.int 7] [7] (by decide)⟩

/-- C9: in the format-parsing wrapper variants (python313_compat and the
pyhula `__init__` copy), a value whose format character is not an
integer code is passed through to the underlying packer unchanged,
except that None becomes 0 for every field regardless of its format
character. -/
theorem claim_C9 :
    ∀ (fc : Char) (v : PyVal), Python313Compat.isCompatIntChar fc = false →
      Python313Compat.convertOne fc v = (if v = PyVal.none then PyVal.int 0 else v) := by
  intro fc v h
  unfold Python313Compat.convertOne
  by_cases hv : v = PyVal.none
  · rw [if_pos hv, if_pos hv]
  · rw [if_neg hv, if_neg hv, if_neg (by rw [h]; simp)]

/-- C9 witness: the pass-through claim evaluated at the float format
character f with a float value and with None. -/
theorem claim_C9_witness :
    Python313Compat.isCompatIntChar 'f' = false ∧
    Python313Compat.convertOne 'f' (PyVal.float (mkRat 1 2)) =
      (if PyVal.float (mkRat 1 2) = PyVal.none then PyVal.int 0
       else PyVal.float (mkRat 1 2)) ∧
    Python313Compat.convertOne 'f' PyVal.none =
      (if PyVal.none = PyVal.none then PyVal.int 0 else PyVal.none) :=
  ⟨by decide, claim_C9 'f' (PyVal.float (mkRat 1 2)) (by decide),
    claim_C9 'f' PyVal.none (by decide)⟩

/-- C10: unpatch_struct_module after patch_struct_module restores the
module's pack binding to the original function saved before patching
(from every state the round trip leaves the binding at the captured
original; from the import-time state — where the binding is still the
original — the round trip is the identity on the state). -/
theorem claim_C10 :
    (∀ s : StructModuleState,
      (unpatch_struct_module (patch_struct_module s)).packBinding = PackBinding.original) ∧
    (∀ s : StructModuleState, s.packBinding = PackBinding.original →
      unpatch_struct_module (patch_struct_module s) = s) ∧
    unpatch_struct_module (patch_struct_module moduleInitState) = moduleInitState := by
  refine ⟨fun s => rfl, ?_, rfl⟩
  intro s h
  obtain ⟨pb⟩ := s
  have h2 : pb = PackBinding.original := h
  subst h2
  rfl

/-- C10 witness: the round-trip claim evaluated at the import-time
state. -/
theorem claim_C10_witness :
    StructModuleState.packBinding { packBinding := PackBinding.original } =
      PackBinding.original ∧
    unpatch_struct_module (patch_struct_module { packBinding := PackBinding.original }) =
      { packBinding := PackBinding.original } :=
  ⟨rfl, claim_C10.2.1 { packBinding := PackBinding.original } rfl⟩
